import Mathlib

/- Verification development for the AI-Security-Posture-management repository
   (src/ai-security-ml.py).

   The Python program is embedded shallowly:
   - tensors become functions Fin n -> Real (a Vec n);
   - the pretrained BERT tokenizer and encoder are opaque parameters carried
     in the model/predictor records (the program treats them as external,
     deterministic collaborators);
   - the random dropout draw made by nn.Dropout in training mode is made
     explicit as a Boolean keep-mask argument (the RNG oracle);
   - loss.backward() followed by optimizer.step() of torch.optim.AdamW is an
     opaque parameter-update function carried in the training configuration,
     while the learning-rate constant 2e-5 and the per-batch sequence of
     operations are embedded exactly;
   - a Python dict batch whose label keys may be absent becomes a record with
     Option-valued label fields, and a KeyError becomes an Except.error. -/

noncomputable section

namespace AISec

/-- Real-valued vector of a fixed dimension, embedding a 1-d tensor row. -/
def Vec (n : ℕ) : Type := Fin n → ℝ

/-- Output of the BERT tokenizer: token ids plus the parallel attention mask
(line 37 of the source builds this from a single text). -/
structure TokenizedInput where
  input_ids : List ℕ
  attention_mask : List ℕ

/-- nn.Linear(m, n): weight matrix and bias. -/
structure LinearLayer (m n : ℕ) where
  weight : Fin n → Fin m → ℝ
  bias : Fin n → ℝ

/-- y = W x + b, the affine map computed by nn.Linear. -/
def LinearLayer.apply {m n : ℕ} (L : LinearLayer m n) (x : Vec m) : Vec n :=
  fun i => (∑ j, L.weight i j * x j) + L.bias i

/-- nn.ReLU() applied pointwise. -/
def relu {n : ℕ} (x : Vec n) : Vec n := fun i => max (x i) 0

/-- The dropout rate 0.3 of nn.Dropout(0.3) (source line 16). -/
def dropoutP : ℝ := 3/10

/-- nn.Dropout(0.3): in training mode each coordinate is kept (and rescaled
by 1/(1-p)) or zeroed according to the random keep-mask drawn from the
global RNG; in eval mode it is the identity. -/
def dropout {n : ℕ} (isTraining : Bool) (keep : Fin n → Bool) (x : Vec n) : Vec n :=
  if isTraining then (fun i => if keep i then x i / (1 - dropoutP) else 0) else x

/-- AISecurityModel (source lines 9-27): BERT encoder (opaque function from
tokenized input to the 768-dim pooler output), the shared head
classifier = Sequential(Linear(768,256), ReLU(), Dropout(0.3), Linear(256,4)),
the severity head Linear(256,4), and the nn.Module training-mode flag. -/
structure AISecurityModel where
  bert : List ℕ → List ℕ → Vec 768
  linear1 : LinearLayer 768 256
  linear2 : LinearLayer 256 4
  severity_classifier : LinearLayer 256 4
  training : Bool

/-- AISecurityModel.forward (source lines 21-27): encode, run the shared head
up to and including dropout (classifier[:-1]) to get the 256-dim features,
then the two parallel 4-way projections.  The dropout keep-mask drawn by the
RNG is passed explicitly. -/
def AISecurityModel.forward (M : AISecurityModel) (keep : Fin 256 → Bool)
    (input_ids attention_mask : List ℕ) : Vec 4 × Vec 4 :=
  let pooled_output := M.bert input_ids attention_mask
  let features := dropout M.training keep (relu (M.linear1.apply pooled_output))
  (M.linear2.apply features, M.severity_classifier.apply features)

/-- The fresh values drawn by AISecurityModel.__init__ (source lines 10-19):
the pretrained BERT weights loaded from the checkpoint and the randomly
initialized parameters of the three linear layers. -/
structure ModelInit where
  bert : List ℕ → List ℕ → Vec 768
  linear1 : LinearLayer 768 256
  linear2 : LinearLayer 256 4
  severity_classifier : LinearLayer 256 4

/-- AISecurityModel.__init__: store the freshly drawn parameters; a new
nn.Module starts in training mode (no eval() call anywhere in the source). -/
def AISecurityModel.ofInit (p : ModelInit) : AISecurityModel :=
  { bert := p.bert
    linear1 := p.linear1
    linear2 := p.linear2
    severity_classifier := p.severity_classifier
    training := true }

/-- torch.softmax along the class dimension for a single row of 4 logits. -/
def softmax (v : Vec 4) : Vec 4 :=
  fun i => Real.exp (v i) / ∑ j, Real.exp (v j)

/-- tensor.argmax().item() on a 1 x 4 tensor: index of the maximum entry,
first index on ties (torch returns the first maximal index). -/
def argmax4 (v : Vec 4) : Fin 4 :=
  let b1 : Fin 4 := if v 0 < v 1 then 1 else 0
  let b2 : Fin 4 := if v b1 < v 2 then 2 else b1
  if v b2 < v 3 then 3 else b2

/-- tensor.max().item() on a 1 x 4 tensor. -/
def max4 (v : Vec 4) : ℝ := max (max (max (v 0) (v 1)) (v 2)) (v 3)

/-- self.attack_types (source line 33). -/
def attackTypeNames : Fin 4 → String :=
  !["normal", "data_poisoning", "prompt_injection", "model_inversion"]

/-- self.severity_levels (source line 34). -/
def severityLevelNames : Fin 4 → String :=
  !["low", "medium", "high", "critical"]

/-- The dict literal returned by SecurityPredictor.predict
(source lines 43-47): exactly the three keys threat_type, severity,
confidence. -/
structure Prediction where
  threat_type : String
  severity : String
  confidence : ℝ

/-- SecurityPredictor (source lines 29-34): tokenizer, model and the two
label-name tables. -/
structure SecurityPredictor where
  tokenizer : String → TokenizedInput
  model : AISecurityModel
  attack_types : Fin 4 → String
  severity_levels : Fin 4 → String

/-- The fresh values drawn by SecurityPredictor.__init__: the pretrained
tokenizer and the fresh model initialization. -/
structure PredictorInit where
  tok : String → TokenizedInput
  modelInit : ModelInit

/-- SecurityPredictor.__init__ (source lines 30-34): load the tokenizer,
construct a fresh AISecurityModel, set the two label tables. -/
def SecurityPredictor.ofInit (p : PredictorInit) : SecurityPredictor :=
  { tokenizer := p.tok
    model := AISecurityModel.ofInit p.modelInit
    attack_types := attackTypeNames
    severity_levels := severityLevelNames }

/-- SecurityPredictor.predict (source lines 36-48) as a state transformer:
tokenize, forward under torch.no_grad() (no gradient state is touched),
softmax each logit row, decode labels by argmax and confidence by max.
The method assigns to no attribute of self, so the returned predictor state
is the input state.  The dropout keep-mask drawn by the global RNG during
the forward call is the explicit keep argument. -/
def SecurityPredictor.predictM (P : SecurityPredictor) (keep : Fin 256 → Bool)
    (text : String) : Prediction × SecurityPredictor :=
  let inputs := P.tokenizer text
  let out := P.model.forward keep inputs.input_ids inputs.attention_mask
  let threat_probs := softmax out.1
  let severity_probs := softmax out.2
  ({ threat_type := P.attack_types (argmax4 threat_probs)
     severity := P.severity_levels (argmax4 severity_probs)
     confidence := max4 threat_probs }, P)

/-- The prediction value returned by SecurityPredictor.predict. -/
def SecurityPredictor.predict (P : SecurityPredictor) (keep : Fin 256 → Bool)
    (text : String) : Prediction :=
  (P.predictM keep text).1

/-- The threat logits computed inside predict for a given text and dropout
draw (first component of the forward pass on the tokenized text). -/
def SecurityPredictor.threatLogits (P : SecurityPredictor) (keep : Fin 256 → Bool)
    (text : String) : Vec 4 :=
  (P.model.forward keep (P.tokenizer text).input_ids (P.tokenizer text).attention_mask).1

/-- The severity logits computed inside predict. -/
def SecurityPredictor.severityLogits (P : SecurityPredictor) (keep : Fin 256 → Bool)
    (text : String) : Vec 4 :=
  (P.model.forward keep (P.tokenizer text).input_ids (P.tokenizer text).attention_mask).2

/-- The POST /analyze handler analyze_threat (source lines 68-71): construct
a brand-new SecurityPredictor - loading the pretrained tokenizer/encoder and
drawing fresh random head parameters on this very call, the freshInit
argument - and return predictor.predict(text). -/
def analyze_threat (freshInit : PredictorInit) (keep : Fin 256 → Bool)
    (text : String) : Prediction :=
  (SecurityPredictor.ofInit freshInit).predict keep text

/-- One training batch: a dict whose input tensors are lists of token-id rows
and whose two label keys may be absent (a missing dict key). -/
structure Batch where
  input_ids : List (List ℕ)
  attention_mask : List (List ℕ)
  threat_labels : Option (List (Fin 4))
  severity_labels : Option (List (Fin 4))

/-- Per-sample cross-entropy with class-index target:
-log softmax(z)[y] = log (sum of exp z) - z y. -/
def ceSample (z : Vec 4) (y : Fin 4) : ℝ :=
  Real.log (∑ j, Real.exp (z j)) - z y

/-- nn.CrossEntropyLoss() with its default mean reduction over the batch. -/
def crossEntropyLoss (zs : List (Vec 4)) (ys : List (Fin 4)) : ℝ :=
  (((zs.zip ys).map fun p => ceSample p.1 p.2).sum) / ((zs.zip ys).length : ℝ)

/-- model(batch['input_ids'], batch['attention_mask']) (source line 58):
row-wise forward pass; each row consumes its own dropout keep-mask draw. -/
def forwardBatch (M : AISecurityModel) (keepRow : ℕ → Fin 256 → Bool)
    (b : Batch) : List (Vec 4) × List (Vec 4) :=
  let outs := ((b.input_ids.zip b.attention_mask).enum).map
    (fun ri => M.forward (keepRow ri.1) ri.2.1 ri.2.2)
  (outs.map Prod.fst, outs.map Prod.snd)

/-- The KeyError raised by batch['threat_labels'] on a dict without the key. -/
def keyErrThreat : String := "KeyError: threat_labels"

/-- The KeyError raised by batch['severity_labels']. -/
def keyErrSeverity : String := "KeyError: severity_labels"

/-- The loss expression of source lines 59-60:
criterion(threat_logits, batch['threat_labels']) +
criterion(severity_logits, batch['severity_labels']).
Python evaluates the threat lookup first, so a batch missing that key fails
there; otherwise a batch missing the severity key fails at the second lookup;
otherwise the loss is the unweighted sum of the two cross-entropy terms. -/
def batchLoss (threat_logits severity_logits : List (Vec 4)) (b : Batch) :
    Except String ℝ :=
  match b.threat_labels with
  | none => .error keyErrThreat
  | some tys =>
    match b.severity_labels with
    | none => .error keyErrSeverity
    | some sys => .ok (crossEntropyLoss threat_logits tys + crossEntropyLoss severity_logits sys)

/-- Observable steps of the training loop body (source lines 57-62). -/
inductive TrainEvent where
  | zeroGrad : TrainEvent
  | forwardPass : TrainEvent
  | lossComputed : ℝ → TrainEvent
  | backward : TrainEvent
  | optStep : ℝ → TrainEvent

/-- torch.optim.AdamW(model.parameters(), lr=...): the learning rate plus the
opaque adaptive-moment update performed by loss.backward() and
optimizer.step() on the model parameters. -/
structure AdamW where
  lr : ℝ
  update : AISecurityModel → ℝ → AISecurityModel

/-- Environment of a train_model run: the stream of dropout keep-masks drawn
by the RNG (per epoch, batch index and row) and the opaque backward+step
parameter update of the external autograd/optimizer. -/
structure TrainConfig where
  masks : ℕ → ℕ → ℕ → Fin 256 → Bool
  update : AISecurityModel → ℝ → AISecurityModel

/-- The inner loop "for batch in train_loader" (source lines 56-62): for each
batch, optimizer.zero_grad(), forward pass, loss computation (which raises
on a missing label key, aborting the run), loss.backward(), optimizer.step().
Returns the trace of performed steps and the final model, or the error that
aborted the epoch together with the partial trace. -/
def runBatches (opt : AdamW) (mE : ℕ → ℕ → Fin 256 → Bool) :
    AISecurityModel → List Batch → ℕ → List TrainEvent × Except String AISecurityModel
  | M, [], _ => ([], .ok M)
  | M, b :: rest, i =>
    match batchLoss (forwardBatch M (mE i) b).1 (forwardBatch M (mE i) b).2 b with
    | .error msg => ([.zeroGrad, .forwardPass], .error msg)
    | .ok l =>
      (.zeroGrad :: .forwardPass :: .lossComputed l :: .backward :: .optStep opt.lr ::
        (runBatches opt mE (opt.update M l) rest (i+1)).1,
       (runBatches opt mE (opt.update M l) rest (i+1)).2)

/-- The outer loop "for epoch in range(num_epochs)" (source lines 54-62):
model.train() then the inner batch loop; an error propagates and ends the
run. -/
def trainLoop (opt : AdamW) (masks : ℕ → ℕ → ℕ → Fin 256 → Bool) (loader : List Batch) :
    AISecurityModel → ℕ → ℕ → List TrainEvent × Except String AISecurityModel
  | M, _, 0 => ([], .ok M)
  | M, e, n+1 =>
    match runBatches opt (masks e) { M with training := true } loader 0 with
    | (tr, .error msg) => (tr, .error msg)
    | (tr, .ok M2) =>
      (tr ++ (trainLoop opt masks loader M2 (e+1) n).1,
       (trainLoop opt masks loader M2 (e+1) n).2)

/-- train_model (source lines 50-62): build the AdamW optimizer with learning
rate 2e-5 over the model parameters, then run the epoch loop. -/
def train_model (cfg : TrainConfig) (model : AISecurityModel)
    (train_loader : List Batch) (num_epochs : ℕ) :
    List TrainEvent × Except String AISecurityModel :=
  trainLoop ⟨2/100000, cfg.update⟩ cfg.masks train_loader model 0 num_epochs

/-- Modelled from the spec (refinement side, for comparison with the code):
the loss of one well-formed batch, CrossEntropy(threat_logits, threat_labels)
+ CrossEntropy(severity_logits, severity_labels) as an unweighted sum. -/
def specLoss (M : AISecurityModel) (mR : ℕ → Fin 256 → Bool) (b : Batch) : ℝ :=
  crossEntropyLoss (forwardBatch M mR b).1 (b.threat_labels.getD []) +
  crossEntropyLoss (forwardBatch M mR b).2 (b.severity_labels.getD [])

/-- Modelled from the spec (refinement side): the event block the spec
prescribes for every batch - reset gradients, forward, loss as the summed
cross entropies, backpropagate, one optimizer step. -/
def specBatchTrace (lr : ℝ) (M : AISecurityModel) (mR : ℕ → Fin 256 → Bool)
    (b : Batch) : List TrainEvent :=
  [.zeroGrad, .forwardPass, .lossComputed (specLoss M mR b), .backward, .optStep lr]

/-- Modelled from the spec (refinement side): trace and final model of one
epoch over well-formed batches. -/
def specEpochTrace (opt : AdamW) (mE : ℕ → ℕ → Fin 256 → Bool) :
    AISecurityModel → List Batch → ℕ → List TrainEvent × AISecurityModel
  | M, [], _ => ([], M)
  | M, b :: rest, i =>
    (specBatchTrace opt.lr M (mE i) b ++
      (specEpochTrace opt mE (opt.update M (specLoss M (mE i) b)) rest (i+1)).1,
     (specEpochTrace opt mE (opt.update M (specLoss M (mE i) b)) rest (i+1)).2)

/-- Modelled from the spec (refinement side): trace and final model of the
whole training run, epoch by epoch. -/
def specTrainTrace (opt : AdamW) (masks : ℕ → ℕ → ℕ → Fin 256 → Bool)
    (loader : List Batch) :
    AISecurityModel → ℕ → ℕ → List TrainEvent × AISecurityModel
  | M, _, 0 => ([], M)
  | M, e, n+1 =>
    ((specEpochTrace opt (masks e) { M with training := true } loader 0).1 ++
      (specTrainTrace opt masks loader
        (specEpochTrace opt (masks e) { M with training := true } loader 0).2 (e+1) n).1,
     (specTrainTrace opt masks loader
       (specEpochTrace opt (masks e) { M with training := true } loader 0).2 (e+1) n).2)

/- Concrete fixtures used by the closed witness and counterexample theorems. -/

/-- A linear layer with all parameters zero. -/
def zeroLayer (m n : ℕ) : LinearLayer m n := ⟨fun _ _ => 0, fun _ => 0⟩

/-- A model initialization with all-zero parameters and a constant encoder. -/
def zeroModelInit : ModelInit :=
  { bert := fun _ _ => fun _ => 0
    linear1 := zeroLayer 768 256
    linear2 := zeroLayer 256 4
    severity_classifier := zeroLayer 256 4 }

/-- A concrete model as built by AISecurityModel.__init__ from the zero draw. -/
def testModel : AISecurityModel := AISecurityModel.ofInit zeroModelInit

/-- A concrete training environment: the RNG always keeps every coordinate
and the opaque optimizer update leaves parameters unchanged. -/
def testCfg : TrainConfig := { masks := fun _ _ _ _ => true, update := fun M _ => M }

/-- A dropout draw that keeps every coordinate. -/
def keepAll : Fin 256 → Bool := fun _ => true

/-- A dropout draw that zeroes exactly coordinate 0 of the shared features. -/
def dropFirst : Fin 256 → Bool := fun j => decide (j ≠ 0)

/-- Constant per-row keep-mask stream for batched forward passes. -/
def keepRows : ℕ → Fin 256 → Bool := fun _ _ => true

/-- A concrete fresh-initialization draw whose threat head has zero weights
and bias (0, 1, 0, 0): every forward pass yields threat logits with the
data_poisoning component strictly maximal. -/
def argmaxTestInit : PredictorInit :=
  { tok := fun _ => ⟨[101], [1]⟩
    modelInit :=
      { bert := fun _ _ => fun _ => 0
        linear1 := zeroLayer 768 256
        linear2 := ⟨fun _ _ => 0, fun c => if c = 1 then 1 else 0⟩
        severity_classifier := zeroLayer 256 4 } }

/-- A concrete fresh-initialization draw whose shared features are all 1
before dropout and whose threat head reads exactly feature 0 into the
data_poisoning logit: whether the RNG drops feature 0 visibly changes the
prediction. -/
def dropoutDemoInit : PredictorInit :=
  { tok := fun _ => ⟨[101], [1]⟩
    modelInit :=
      { bert := fun _ _ => fun _ => 0
        linear1 := ⟨fun _ _ => 0, fun _ => 1⟩
        linear2 := ⟨fun c f => if c = 1 then (if f = 0 then 1 else 0) else 0, fun _ => 0⟩
        severity_classifier := zeroLayer 256 4 } }

/-- The predictor the /analyze call builds from dropoutDemoInit. -/
def dropoutDemoPredictor : SecurityPredictor := SecurityPredictor.ofInit dropoutDemoInit

/-- A well-formed training batch carrying both label keys. -/
def goodBatch : Batch :=
  { input_ids := [[7]], attention_mask := [[1]]
    threat_labels := some [0], severity_labels := some [3] }

/-- A malformed training batch missing the severity_labels key. -/
def badBatch : Batch :=
  { input_ids := [[5]], attention_mask := [[1]]
    threat_labels := some [2], severity_labels := none }

/- Helper lemmas about the numeric kernel of predict. -/

lemma sumExp_pos (v : Vec 4) : 0 < ∑ j, Real.exp (v j) :=
  Finset.sum_pos (fun j _ => Real.exp_pos (v j)) Finset.univ_nonempty

lemma exp_le_sumExp (v : Vec 4) (i : Fin 4) : Real.exp (v i) ≤ ∑ j, Real.exp (v j) :=
  Finset.single_le_sum (fun j _ => (Real.exp_pos (v j)).le) (Finset.mem_univ i)

lemma softmax_nonneg (v : Vec 4) (i : Fin 4) : 0 ≤ softmax v i :=
  div_nonneg (Real.exp_pos (v i)).le (sumExp_pos v).le

lemma softmax_le_one (v : Vec 4) (i : Fin 4) : softmax v i ≤ 1 :=
  (div_le_one (sumExp_pos v)).mpr (exp_le_sumExp v i)

lemma softmax_sum_eq_one (v : Vec 4) : ∑ i, softmax v i = 1 := by
  simp only [softmax]
  rw [← Finset.sum_div]
  exact div_self (sumExp_pos v).ne'

lemma softmax_lt_iff (v : Vec 4) (i j : Fin 4) :
    softmax v i < softmax v j ↔ v i < v j := by
  simp only [softmax]
  rw [div_lt_div_iff_of_pos_right (sumExp_pos v)]
  exact Real.exp_lt_exp

lemma argmax4_softmax (v : Vec 4) : argmax4 (softmax v) = argmax4 v := by
  simp only [argmax4, softmax_lt_iff]

lemma argmax4_eq_one {v : Vec 4} (h : ∀ j : Fin 4, j ≠ 1 → v j < v 1) :
    argmax4 v = 1 := by
  have h0 : v 0 < v 1 := h 0 (by decide)
  have h2 : ¬ v 1 < v 2 := not_lt.mpr (h 2 (by decide)).le
  have h3 : ¬ v 1 < v 3 := not_lt.mpr (h 3 (by decide)).le
  simp only [argmax4, if_pos h0, if_neg h2, if_neg h3]

lemma argmax4_eq_zero {v : Vec 4} (h1 : ¬ v 0 < v 1) (h2 : ¬ v 0 < v 2)
    (h3 : ¬ v 0 < v 3) : argmax4 v = 0 := by
  simp only [argmax4, if_neg h1, if_neg h2, if_neg h3]

lemma le_max4 (v : Vec 4) (i : Fin 4) : v i ≤ max4 v := by
  fin_cases i
  · exact le_max_of_le_left (le_max_of_le_left (le_max_left _ _))
  · exact le_max_of_le_left (le_max_of_le_left (le_max_right _ _))
  · exact le_max_of_le_left (le_max_right _ _)
  · exact le_max_right _ _

lemma max4_le {v : Vec 4} {c : ℝ} (h : ∀ i, v i ≤ c) : max4 v ≤ c :=
  max_le (max_le (max_le (h 0) (h 1)) (h 2)) (h 3)

lemma attackTypeNames_mem (j : Fin 4) :
    attackTypeNames j ∈
      ["normal", "data_poisoning", "prompt_injection", "model_inversion"] := by
  fin_cases j <;> simp [attackTypeNames]

lemma severityLevelNames_mem (j : Fin 4) :
    severityLevelNames j ∈ ["low", "medium", "high", "critical"] := by
  fin_cases j <;> simp [severityLevelNames]

/-- Claim C1: for every valid text input, the prediction produced by
SecurityPredictor.predict - which is exactly what the POST /analyze endpoint
returns - is a Prediction record (exactly the fields threat_type, severity,
confidence), with threat_type drawn from exactly the four attack-type names
and severity from exactly the four severity names. -/
theorem predict_output_label_sets (ini : PredictorInit) (keep : Fin 256 → Bool)
    (text : String) :
    analyze_threat ini keep text = (SecurityPredictor.ofInit ini).predict keep text ∧
    (analyze_threat ini keep text).threat_type ∈
      ["normal", "data_poisoning", "prompt_injection", "model_inversion"] ∧
    (analyze_threat ini keep text).severity ∈ ["low", "medium", "high", "critical"] := by
  refine ⟨rfl, ?_, ?_⟩
  · have h : (analyze_threat ini keep text).threat_type =
        attackTypeNames (argmax4 (softmax
          ((SecurityPredictor.ofInit ini).threatLogits keep text))) := rfl
    rw [h]
    exact attackTypeNames_mem _
  · have h : (analyze_threat ini keep text).severity =
        severityLevelNames (argmax4 (softmax
          ((SecurityPredictor.ofInit ini).severityLogits keep text))) := rfl
    rw [h]
    exact severityLevelNames_mem _

/-- Claim C2: for every input to predict, the returned confidence equals the
maximum of the softmax-normalized threat logits (not of the severity logits),
lies in the interval from 0 to 1, and the four softmax-normalized threat
probabilities sum to 1. -/
theorem predict_confidence_is_max_softmax (P : SecurityPredictor)
    (keep : Fin 256 → Bool) (text : String) :
    (P.predict keep text).confidence = max4 (softmax (P.threatLogits keep text)) ∧
    0 ≤ (P.predict keep text).confidence ∧
    (P.predict keep text).confidence ≤ 1 ∧
    ∑ i, softmax (P.threatLogits keep text) i = 1 := by
  have hc : (P.predict keep text).confidence =
      max4 (softmax (P.threatLogits keep text)) := rfl
  refine ⟨hc, ?_, ?_, softmax_sum_eq_one _⟩
  · rw [hc]
    exact le_trans (softmax_nonneg (P.threatLogits keep text) 0) (le_max4 _ 0)
  · rw [hc]
    exact max4_le fun i => softmax_le_one _ i

/-- Claim C10: the confidence returned by predict is always at least 1/4,
being the maximum of a softmax distribution over exactly 4 classes. -/
theorem predict_confidence_ge_quarter (P : SecurityPredictor)
    (keep : Fin 256 → Bool) (text : String) :
    (1 : ℝ)/4 ≤ (P.predict keep text).confidence := by
  have hc : (P.predict keep text).confidence =
      max4 (softmax (P.threatLogits keep text)) := rfl
  rw [hc]
  have hsum := softmax_sum_eq_one (P.threatLogits keep text)
  rw [Fin.sum_univ_four] at hsum
  have h0 := le_max4 (softmax (P.threatLogits keep text)) 0
  have h1 := le_max4 (softmax (P.threatLogits keep text)) 1
  have h2 := le_max4 (softmax (P.threatLogits keep text)) 2
  have h3 := le_max4 (softmax (P.threatLogits keep text)) 3
  linarith

/-- Claim C5: every call of the /analyze endpoint constructs a fresh
SecurityPredictor whose AISecurityModel carries exactly this call's freshly
drawn (randomly initialized, untrained) classification-head parameters, in
training mode; no stored or shared parameters enter the construction. -/
theorem analyze_threat_fresh_model (ini : PredictorInit) (keep : Fin 256 → Bool)
    (text : String) :
    analyze_threat ini keep text = (SecurityPredictor.ofInit ini).predict keep text ∧
    (SecurityPredictor.ofInit ini).model = AISecurityModel.ofInit ini.modelInit ∧
    (AISecurityModel.ofInit ini.modelInit).bert = ini.modelInit.bert ∧
    (AISecurityModel.ofInit ini.modelInit).linear1 = ini.modelInit.linear1 ∧
    (AISecurityModel.ofInit ini.modelInit).linear2 = ini.modelInit.linear2 ∧
    (AISecurityModel.ofInit ini.modelInit).severity_classifier =
      ini.modelInit.severity_classifier ∧
    (AISecurityModel.ofInit ini.modelInit).training = true :=
  ⟨rfl, rfl, rfl, rfl, rfl, rfl, rfl⟩

/-- Claim C9: predict has no side effects beyond invoking the model: the
predictor state returned by the state-transformer reading of the method is
the input state - model parameters and both label-name tables unchanged -
and its value component is the returned Prediction. -/
theorem predict_no_side_effects (P : SecurityPredictor) (keep : Fin 256 → Bool)
    (text : String) :
    (P.predictM keep text).2 = P ∧
    (P.predictM keep text).2.model = P.model ∧
    (P.predictM keep text).2.attack_types = P.attack_types ∧
    (P.predictM keep text).2.severity_levels = P.severity_levels ∧
    (P.predictM keep text).1 = P.predict keep text :=
  ⟨rfl, rfl, rfl, rfl, rfl⟩

lemma argmaxTest_tl (c : Fin 4) :
    (SecurityPredictor.ofInit argmaxTestInit).threatLogits keepAll "DROP TABLE users; --" c =
      if c = 1 then (1 : ℝ) else 0 := by
  simp [SecurityPredictor.ofInit, SecurityPredictor.threatLogits, argmaxTestInit,
    AISecurityModel.ofInit, AISecurityModel.forward, LinearLayer.apply, zeroLayer]

/-- Claim C3: predict selects the threat label as the arg-max of the
softmax-normalized threat logits and the severity label as the arg-max of the
independently softmax-normalized severity logits; and whenever the forward
pass makes the data_poisoning component of the threat logits strictly
maximal, predict returns threat_type data_poisoning, independent of the
severity logits. -/
theorem predict_selects_argmax (ini : PredictorInit) (keep : Fin 256 → Bool)
    (text : String)
    (h : ∀ j : Fin 4, j ≠ 1 →
      (SecurityPredictor.ofInit ini).threatLogits keep text j <
        (SecurityPredictor.ofInit ini).threatLogits keep text 1) :
    ((SecurityPredictor.ofInit ini).predict keep text).threat_type =
      attackTypeNames (argmax4 (softmax
        ((SecurityPredictor.ofInit ini).threatLogits keep text))) ∧
    ((SecurityPredictor.ofInit ini).predict keep text).severity =
      severityLevelNames (argmax4 (softmax
        ((SecurityPredictor.ofInit ini).severityLogits keep text))) ∧
    ((SecurityPredictor.ofInit ini).predict keep text).threat_type =
      "data_poisoning" := by
  refine ⟨rfl, rfl, ?_⟩
  have h1 : ((SecurityPredictor.ofInit ini).predict keep text).threat_type =
      attackTypeNames (argmax4 (softmax
        ((SecurityPredictor.ofInit ini).threatLogits keep text))) := rfl
  rw [h1, argmax4_softmax, argmax4_eq_one h]
  rfl

/-- Witness for claim C3: a concrete predictor whose fixed head weights make
the data_poisoning logit strictly maximal on the text containing an SQL
injection payload; predict decodes it to data_poisoning. -/
theorem predict_selects_argmax_witness :
    (∀ j : Fin 4, j ≠ 1 →
      (SecurityPredictor.ofInit argmaxTestInit).threatLogits keepAll
          "DROP TABLE users; --" j <
        (SecurityPredictor.ofInit argmaxTestInit).threatLogits keepAll
          "DROP TABLE users; --" 1) ∧
    ((SecurityPredictor.ofInit argmaxTestInit).predict keepAll
        "DROP TABLE users; --").threat_type = "data_poisoning" := by
  have h : ∀ j : Fin 4, j ≠ 1 →
      (SecurityPredictor.ofInit argmaxTestInit).threatLogits keepAll
          "DROP TABLE users; --" j <
        (SecurityPredictor.ofInit argmaxTestInit).threatLogits keepAll
          "DROP TABLE users; --" 1 := by
    intro j hj
    rw [argmaxTest_tl, argmaxTest_tl, if_neg hj, if_pos rfl]
    norm_num
  exact ⟨h, (predict_selects_argmax argmaxTestInit keepAll "DROP TABLE users; --" h).2.2⟩

lemma demo_tl (keep : Fin 256 → Bool) (c : Fin 4) :
    dropoutDemoPredictor.threatLogits keep "attack" c =
      if c = 1 then (if keep 0 then (10/7 : ℝ) else 0) else 0 := by
  have hmax : max (1 : ℝ) 0 = 1 := max_eq_left zero_le_one
  by_cases hc : c = 1
  · subst hc
    simp only [dropoutDemoPredictor, SecurityPredictor.ofInit, SecurityPredictor.threatLogits,
      dropoutDemoInit, AISecurityModel.ofInit, AISecurityModel.forward, LinearLayer.apply,
      relu, dropout, dropoutP, zeroLayer, if_true, if_pos rfl]
    simp only [zero_mul, Finset.sum_const_zero, zero_add, add_zero, hmax, ite_mul, one_mul]
    rw [Finset.sum_ite_eq' Finset.univ (0 : Fin 256)]
    simp only [Finset.mem_univ, if_true]
    by_cases hk : keep 0
    · rw [if_pos hk, if_pos hk]
      norm_num
    · rw [if_neg hk, if_neg hk]
  · simp only [dropoutDemoPredictor, SecurityPredictor.ofInit, SecurityPredictor.threatLogits,
      dropoutDemoInit, AISecurityModel.ofInit, AISecurityModel.forward, LinearLayer.apply,
      zeroLayer, if_neg hc]
    simp [hc]

lemma demo_keep_label :
    (dropoutDemoPredictor.predict keepAll "attack").threat_type = "data_poisoning" := by
  have h1 : (dropoutDemoPredictor.predict keepAll "attack").threat_type =
      attackTypeNames (argmax4 (softmax
        (dropoutDemoPredictor.threatLogits keepAll "attack"))) := rfl
  have h : ∀ j : Fin 4, j ≠ 1 →
      dropoutDemoPredictor.threatLogits keepAll "attack" j <
        dropoutDemoPredictor.threatLogits keepAll "attack" 1 := by
    intro j hj
    rw [demo_tl, demo_tl, if_neg hj, if_pos rfl]
    simp only [keepAll, if_pos rfl]
    norm_num
  rw [h1, argmax4_softmax, argmax4_eq_one h]
  rfl

lemma demo_drop_label :
    (dropoutDemoPredictor.predict dropFirst "attack").threat_type = "normal" := by
  have h1 : (dropoutDemoPredictor.predict dropFirst "attack").threat_type =
      attackTypeNames (argmax4 (softmax
        (dropoutDemoPredictor.threatLogits dropFirst "attack"))) := rfl
  have hv : ∀ c : Fin 4, dropoutDemoPredictor.threatLogits dropFirst "attack" c = 0 := by
    intro c
    rw [demo_tl]
    have hk : dropFirst 0 = false := by decide
    rw [hk]
    simp
  have hne : ∀ a b : Fin 4,
      ¬ dropoutDemoPredictor.threatLogits dropFirst "attack" a <
        dropoutDemoPredictor.threatLogits dropFirst "attack" b := by
    intro a b
    rw [hv a, hv b]
    exact lt_irrefl 0
  rw [h1, argmax4_softmax, argmax4_eq_zero (hne 0 1) (hne 0 2) (hne 0 3)]
  rfl

/-- Claim C4 (refuted by the code, code bug): the source never calls
model.eval(), so the freshly built model stays in training mode and
nn.Dropout(0.3) keeps randomly zeroing features inside predict; two calls of
predict on the same text with the same model parameters, differing only in
the RNG dropout draw, return different Predictions.  This theorem evaluates
the code at the failing input: the dropoutDemoPredictor model is in training
mode, and the two dropout draws keepAll and dropFirst decode to different
threat types. -/
theorem predict_dropout_active_nondeterministic :
    dropoutDemoPredictor.model.training = true ∧
    dropoutDemoPredictor.predict keepAll "attack" ≠
      dropoutDemoPredictor.predict dropFirst "attack" := by
  refine ⟨rfl, ?_⟩
  intro hEq
  have h := congrArg Prediction.threat_type hEq
  rw [demo_keep_label, demo_drop_label] at h
  exact absurd h (by decide)

lemma ceSample_nonneg (z : Vec 4) (y : Fin 4) : 0 ≤ ceSample z y := by
  have h1 : Real.exp (z y) ≤ ∑ j, Real.exp (z j) := exp_le_sumExp z y
  have h2 : z y ≤ Real.log (∑ j, Real.exp (z j)) := by
    rw [← Real.log_exp (z y)]
    exact Real.log_le_log (Real.exp_pos (z y)) h1
  have h3 : ceSample z y = Real.log (∑ j, Real.exp (z j)) - z y := rfl
  rw [h3]
  linarith

lemma crossEntropyLoss_nonneg (zs : List (Vec 4)) (ys : List (Fin 4)) :
    0 ≤ crossEntropyLoss zs ys := by
  have h1 : crossEntropyLoss zs ys =
      (((zs.zip ys).map fun p => ceSample p.1 p.2).sum) / ((zs.zip ys).length : ℝ) := rfl
  rw [h1]
  apply div_nonneg
  · apply List.sum_nonneg
    intro x hx
    obtain ⟨p, _, rfl⟩ := List.mem_map.mp hx
    exact ceSample_nonneg p.1 p.2
  · exact Nat.cast_nonneg _

/-- Claim C8: for every batch carrying valid threat and severity labels, the
training loss computed by train_model - the sum of the two cross-entropy
terms - is non-negative. -/
theorem train_batch_loss_nonneg (M : AISecurityModel) (mR : ℕ → Fin 256 → Bool)
    (b : Batch) (tys sys : List (Fin 4))
    (ht : b.threat_labels = some tys) (hs : b.severity_labels = some sys) :
    batchLoss (forwardBatch M mR b).1 (forwardBatch M mR b).2 b =
      .ok (crossEntropyLoss (forwardBatch M mR b).1 tys +
           crossEntropyLoss (forwardBatch M mR b).2 sys) ∧
    0 ≤ crossEntropyLoss (forwardBatch M mR b).1 tys +
        crossEntropyLoss (forwardBatch M mR b).2 sys := by
  constructor
  · simp [batchLoss, ht, hs]
  · exact add_nonneg (crossEntropyLoss_nonneg _ _) (crossEntropyLoss_nonneg _ _)

/-- Witness for claim C8 at a concrete model and batch. -/
theorem train_batch_loss_nonneg_witness :
    goodBatch.threat_labels = some [0] ∧ goodBatch.severity_labels = some [3] ∧
    (batchLoss (forwardBatch testModel keepRows goodBatch).1
        (forwardBatch testModel keepRows goodBatch).2 goodBatch =
      .ok (crossEntropyLoss (forwardBatch testModel keepRows goodBatch).1 [0] +
           crossEntropyLoss (forwardBatch testModel keepRows goodBatch).2 [3]) ∧
    0 ≤ crossEntropyLoss (forwardBatch testModel keepRows goodBatch).1 [0] +
        crossEntropyLoss (forwardBatch testModel keepRows goodBatch).2 [3]) :=
  ⟨rfl, rfl, train_batch_loss_nonneg testModel keepRows goodBatch [0] [3] rfl rfl⟩

lemma runBatches_good (opt : AdamW) (mE : ℕ → ℕ → Fin 256 → Bool) :
    ∀ (bs : List Batch),
      (∀ b ∈ bs, b.threat_labels.isSome ∧ b.severity_labels.isSome) →
    ∀ (M : AISecurityModel) (i : ℕ),
      runBatches opt mE M bs i =
        ((specEpochTrace opt mE M bs i).1, .ok (specEpochTrace opt mE M bs i).2) := by
  intro bs
  induction bs with
  | nil => intro _ M i; simp [runBatches, specEpochTrace]
  | cons b rest ih =>
    intro h M i
    obtain ⟨ys, hys⟩ := Option.isSome_iff_exists.mp (h b (List.mem_cons_self b rest)).1
    obtain ⟨zs, hzs⟩ := Option.isSome_iff_exists.mp (h b (List.mem_cons_self b rest)).2
    have hih := ih (fun x hx => h x (List.mem_cons_of_mem b hx))
      (opt.update M (crossEntropyLoss (forwardBatch M (mE i) b).1 ys +
        crossEntropyLoss (forwardBatch M (mE i) b).2 zs)) (i+1)
    simp [runBatches, specEpochTrace, batchLoss, hys, hzs, specBatchTrace, specLoss, hih]

lemma trainLoop_good (opt : AdamW) (masks : ℕ → ℕ → ℕ → Fin 256 → Bool)
    (loader : List Batch)
    (h : ∀ b ∈ loader, b.threat_labels.isSome ∧ b.severity_labels.isSome) :
    ∀ (n e : ℕ) (M : AISecurityModel),
      trainLoop opt masks loader M e n =
        ((specTrainTrace opt masks loader M e n).1,
         .ok (specTrainTrace opt masks loader M e n).2) := by
  intro n
  induction n with
  | zero => intro e M; simp [trainLoop, specTrainTrace]
  | succ m ih =>
    intro e M
    have hep := runBatches_good opt (masks e) loader h { M with training := true } 0
    simp [trainLoop, specTrainTrace, hep, ih]

/-- Claim C6: over a loader of well-formed batches, train_model performs for
every epoch and every batch exactly the sequence reset-gradients, forward
pass, loss computed as the unweighted sum of the two cross-entropy terms,
backpropagation, one AdamW optimizer step at learning rate 2e-5 - the trace
is exactly the spec-side trace built from five-event blocks - and training
completes without error. -/
theorem train_model_epoch_batch_sequence (cfg : TrainConfig) (M : AISecurityModel)
    (loader : List Batch) (n : ℕ)
    (h : ∀ b ∈ loader, b.threat_labels.isSome ∧ b.severity_labels.isSome) :
    train_model cfg M loader n =
      ((specTrainTrace ⟨2/100000, cfg.update⟩ cfg.masks loader M 0 n).1,
       .ok (specTrainTrace ⟨2/100000, cfg.update⟩ cfg.masks loader M 0 n).2) :=
  trainLoop_good ⟨2/100000, cfg.update⟩ cfg.masks loader h n 0 M

/-- Witness for claim C6 at a concrete one-batch loader and one epoch. -/
theorem train_model_epoch_batch_sequence_witness :
    (∀ b ∈ [goodBatch], b.threat_labels.isSome ∧ b.severity_labels.isSome) ∧
    train_model testCfg testModel [goodBatch] 1 =
      ((specTrainTrace ⟨2/100000, testCfg.update⟩ testCfg.masks [goodBatch] testModel 0 1).1,
       .ok (specTrainTrace ⟨2/100000, testCfg.update⟩ testCfg.masks
            [goodBatch] testModel 0 1).2) := by
  have h : ∀ b ∈ [goodBatch], b.threat_labels.isSome ∧ b.severity_labels.isSome := by
    intro b hb
    rw [List.mem_singleton] at hb
    subst hb
    exact ⟨rfl, rfl⟩
  exact ⟨h, train_model_epoch_batch_sequence testCfg testModel [goodBatch] 1 h⟩

lemma runBatches_abort (opt : AdamW) (mE : ℕ → ℕ → Fin 256 → Bool) (bad : Batch)
    (rest : List Batch)
    (hbad : bad.threat_labels = none ∨ bad.severity_labels = none) :
    ∀ (front : List Batch),
      (∀ b ∈ front, b.threat_labels.isSome ∧ b.severity_labels.isSome) →
    ∀ (M : AISecurityModel) (i : ℕ),
      ∃ msg, runBatches opt mE M (front ++ bad :: rest) i =
        ((specEpochTrace opt mE M front i).1 ++ [.zeroGrad, .forwardPass],
         .error msg) := by
  intro front
  induction front with
  | nil =>
    intro _ M i
    rcases hbad with hb | hb
    · exact ⟨keyErrThreat, by simp [runBatches, batchLoss, hb, specEpochTrace]⟩
    · cases ht : bad.threat_labels with
      | none => exact ⟨keyErrThreat, by simp [runBatches, batchLoss, ht, specEpochTrace]⟩
      | some tys =>
        exact ⟨keyErrSeverity, by simp [runBatches, batchLoss, ht, hb, specEpochTrace]⟩
  | cons b front ih =>
    intro h M i
    obtain ⟨ys, hys⟩ := Option.isSome_iff_exists.mp (h b (List.mem_cons_self b front)).1
    obtain ⟨zs, hzs⟩ := Option.isSome_iff_exists.mp (h b (List.mem_cons_self b front)).2
    obtain ⟨msg, hmsg⟩ := ih (fun x hx => h x (List.mem_cons_of_mem b hx))
      (opt.update M (crossEntropyLoss (forwardBatch M (mE i) b).1 ys +
        crossEntropyLoss (forwardBatch M (mE i) b).2 zs)) (i+1)
    refine ⟨msg, ?_⟩
    simp [runBatches, batchLoss, hys, hzs, specEpochTrace, specBatchTrace, specLoss, hmsg]

/-- Claim C7: if train_model encounters a batch missing the severity_labels
(or threat_labels) key, it propagates the KeyError and aborts: the run ends
in an error whose trace covers only the well-formed batches before the
malformed one plus the malformed batch's steps up to its failing loss
computation; no later batch is processed. -/
theorem train_model_aborts_on_missing_labels (cfg : TrainConfig)
    (M : AISecurityModel) (front : List Batch) (bad : Batch) (rest : List Batch)
    (n : ℕ)
    (hfront : ∀ b ∈ front, b.threat_labels.isSome ∧ b.severity_labels.isSome)
    (hbad : bad.threat_labels = none ∨ bad.severity_labels = none)
    (hn : 0 < n) :
    ∃ msg, train_model cfg M (front ++ bad :: rest) n =
      ((specEpochTrace ⟨2/100000, cfg.update⟩ (cfg.masks 0)
          { M with training := true } front 0).1 ++ [.zeroGrad, .forwardPass],
       .error msg) := by
  obtain ⟨m, rfl⟩ := Nat.exists_eq_succ_of_ne_zero (Nat.pos_iff_ne_zero.mp hn)
  obtain ⟨msg, hmsg⟩ := runBatches_abort ⟨2/100000, cfg.update⟩ (cfg.masks 0) bad rest
    hbad front hfront { M with training := true } 0
  refine ⟨msg, ?_⟩
  simp [train_model, trainLoop, hmsg]

/-- Witness for claim C7 at a concrete loader whose only batch misses the
severity_labels key. -/
theorem train_model_aborts_on_missing_labels_witness :
    (badBatch.threat_labels = none ∨ badBatch.severity_labels = none) ∧
    ∃ msg, train_model testCfg testModel ([] ++ badBatch :: []) 1 =
      ((specEpochTrace ⟨2/100000, testCfg.update⟩ (testCfg.masks 0)
          { testModel with training := true } [] 0).1 ++ [.zeroGrad, .forwardPass],
       .error msg) := by
  refine ⟨Or.inr rfl, ?_⟩
  exact train_model_aborts_on_missing_labels testCfg testModel [] badBatch [] 1
    (by intro b hb; exact absurd hb (List.not_mem_nil b)) (Or.inr rfl) Nat.one_pos

end AISec
